import Mathlib

/-!
Verification of the `AgmMarkerCluster` directive
(`src/packages/js-marker-clusterer/directives/marker-cluster.ts`).

The directive is an adapter: it translates Angular lifecycle hooks
(`ngOnChanges`, `ngOnInit`, `ngOnDestroy`) into calls on a wrapped
`ClusterManager`, guards the projected info windows, and re-exposes the
manager's cluster-click events as an Angular output.

This file shallowly embeds the directive:
* calls the directive makes on its `ClusterManager` are an explicit
  `ManagerCall` trace;
* the mutable instance fields (`@Input` properties, the projected
  `infoWindow` list, the `_observableSubscriptions` array) are a record
  `AgmMarkerCluster`, threaded explicitly through each lifecycle method;
* the cluster-click subscriber callback is a pure function from a
  `Cluster` value to a list of `DirectiveAction`s (info-window opens,
  `clusterClick` emissions), preserving the order of the source;
* the `throw` in `handleInfoWindowUpdate` is an `Option String` error
  component paired with the (possibly updated) info-window list.

Geographic coordinates are modelled as `Int`: the directive only copies
them field by field, never computes with them, so the carrier type is
irrelevant to every property proved here.
-/

namespace MarkerCluster

/-- One entry of a `ClusterStyle` object (external typing from
`google-clusterer-types`; the directive never inspects it, only forwards
it). -/
structure ClusterStyle where
  url : String := ""
  height : Int := 0
  width : Int := 0
deriving DecidableEq, Repr

/-- A latitude/longitude pair; `lat`/`lng` mirror the Maps API accessor
methods `lat()` / `lng()`. -/
structure LatLng where
  lat : Int
  lng : Int
deriving DecidableEq, Repr

/-- A bounding box exposing its north-east and south-west corners, as the
Maps API `LatLngBounds` does via `getNorthEast()` / `getSouthWest()`. -/
structure LatLngBounds where
  getNorthEast : LatLng
  getSouthWest : LatLng
deriving DecidableEq, Repr

/-- A projected `AgmMarker` as far as the directive reads it: the click
handler reads only `title`; the other fields stand in for the rest of the
marker's data and witness that the emitted payload drops them. -/
structure AgmMarker where
  title : String
  latitude : Int := 0
  longitude : Int := 0
  label : String := ""
deriving DecidableEq, Repr

/-- A cluster value from the wrapped library, as read by the subscriber in
`_addEventListeners`: `getCenter()`, `getBounds()`, `getMarkers()`. -/
structure Cluster where
  getCenter : LatLng
  getBounds : LatLngBounds
  getMarkers : List AgmMarker
deriving DecidableEq, Repr

/-- A projected `AgmInfoWindow` as far as the directive touches it: the
`hostMarker` field written by `handleInfoWindowUpdate` (`true` once it has
been pointed at this directive). -/
structure AgmInfoWindow where
  hostMarker : Bool := false
deriving DecidableEq, Repr

/-- The `bounds` field of the emitted click event. -/
structure ClusterClickBounds where
  north : Int
  east : Int
  south : Int
  west : Int
deriving DecidableEq, Repr

/-- The `center` field of the emitted click event. -/
structure ClusterClickCenter where
  lat : Int
  lng : Int
deriving DecidableEq, Repr

/-- One entry of the emitted event's `markers` array: the object literal
`\x7b title: marker.title \x7d` built in the subscriber, which carries the
title and nothing else. -/
structure ClusterClickMarker where
  title : String
deriving DecidableEq, Repr

/-- The `AgmClusterClickEvent` payload assembled in `_addEventListeners`. -/
structure AgmClusterClickEvent where
  bounds : ClusterClickBounds
  center : ClusterClickCenter
  markers : List ClusterClickMarker
deriving DecidableEq, Repr

/-- The full options object passed to `ClusterManager.init` by
`ngOnInit`.  `Option` values model TypeScript fields that may still be
`undefined` when the host never bound the input. -/
structure ClusterOptions where
  gridSize : Option Int
  maxZoom : Option Int
  zoomOnClick : Option Bool
  averageCenter : Option Bool
  minimumClusterSize : Option Int
  styles : Option ClusterStyle
  imagePath : Option String
  imageExtension : Option String
deriving DecidableEq, Repr

/-- One call made by the directive on its injected `ClusterManager`.
Setters receive `this` in the source; no claim inspects the argument, so
the constructors record only which method was called. -/
inductive ManagerCall where
  | setGridSize
  | setMaxZoom
  | setStyles
  | setZoomOnClick
  | setAverageCenter
  | setMinimumClusterSize
  | setImagePath
  | setImageExtension
  | init (options : ClusterOptions)
  | clearMarkers
  | createClusterEventObservable (eventName : String)
deriving DecidableEq, Repr

/-- `true` exactly for the manager calls the spec calls "setter calls" and
for `init`. -/
def ManagerCall.isSetterOrInit : ManagerCall → Bool
  | .setGridSize => true
  | .setMaxZoom => true
  | .setStyles => true
  | .setZoomOnClick => true
  | .setAverageCenter => true
  | .setMinimumClusterSize => true
  | .setImagePath => true
  | .setImageExtension => true
  | .init _ => true
  | .clearMarkers => false
  | .createClusterEventObservable _ => false

/-- `true` exactly for `ClusterManager.init` calls. -/
def ManagerCall.isInitCall : ManagerCall → Bool
  | .init _ => true
  | _ => false

/-- The mutable state of one `AgmMarkerCluster` instance: its `@Input`
fields (with the initializers of the class: only `openInfoWindow` has
one), the projected info windows, and the `_observableSubscriptions`
array, recorded as the event name each subscription listens to. -/
structure AgmMarkerCluster where
  gridSize : Option Int := none
  maxZoom : Option Int := none
  zoomOnClick : Option Bool := none
  averageCenter : Option Bool := none
  minimumClusterSize : Option Int := none
  styles : Option ClusterStyle := none
  openInfoWindow : Bool := true
  imagePath : Option String := none
  imageExtension : Option String := none
  infoWindow : List AgmInfoWindow := []
  observableSubscriptions : List String := []
deriving DecidableEq, Repr

/-- A freshly constructed directive instance whose inputs the host never
set: every field holds its class initializer. -/
def defaultDirective : AgmMarkerCluster := {}

/-- `handleInfoWindowUpdate`: first component is the thrown error (if
any), second the projected info-window list after the call.  The `throw`
in the source precedes the `forEach`, so on the error path the windows
come back exactly as they were; otherwise every window's `hostMarker` is
assigned. -/
def handleInfoWindowUpdate (ws : List AgmInfoWindow) :
    Option String × List AgmInfoWindow :=
  if ws.length > 1 then
    (some "Expected no more than one info window.", ws)
  else
    (none, ws.map fun w => { w with hostMarker := true })

/-- One observable action of the subscriber callbacks: opening a projected
info window, emitting the `clusterClick` output, or the `console.log` in
the double-click subscriber. -/
inductive DirectiveAction where
  | infoWindowOpen
  | emitClusterClick (event : AgmClusterClickEvent)
  | consoleLogCluster
deriving DecidableEq, Repr

/-- `true` exactly for info-window `open()` actions. -/
def DirectiveAction.isOpen : DirectiveAction → Bool
  | .infoWindowOpen => true
  | _ => false

/-- The `AgmClusterClickEvent` assembled by the cluster-click subscriber:
bounds from the cluster bounds' corners, center from the cluster center,
markers mapped to their titles. -/
def buildClusterClickEvent (cluster : Cluster) : AgmClusterClickEvent :=
  let clusterCenter := cluster.getCenter
  let northEastBounds := cluster.getBounds.getNorthEast
  let southWestBounds := cluster.getBounds.getSouthWest
  { bounds :=
      { north := northEastBounds.lat
        east := northEastBounds.lng
        south := southWestBounds.lat
        west := southWestBounds.lng }
    center :=
      { lat := clusterCenter.lat
        lng := clusterCenter.lng }
    markers := cluster.getMarkers.map fun marker => { title := marker.title } }

/-- The cluster-click subscriber of `_addEventListeners`, as the action
trace of one delivered cluster: if `openInfoWindow` is set, `open()` each
projected info window; then emit the assembled event. -/
def clusterClickHandler (openInfoWindow : Bool)
    (infoWindows : List AgmInfoWindow) (cluster : Cluster) :
    List DirectiveAction :=
  (if openInfoWindow then infoWindows.map fun _ => DirectiveAction.infoWindowOpen
   else []) ++
  [DirectiveAction.emitClusterClick (buildClusterClickEvent cluster)]

/-- The double-click subscriber of `_addEventListeners`: only
`console.log(cluster)`. -/
def doubleClickHandler (_cluster : Cluster) : List DirectiveAction :=
  [DirectiveAction.consoleLogCluster]

/-- `_addEventListeners`: creates the two cluster event observables on the
manager, subscribes to each, and pushes both subscriptions (click first,
then double-click) onto `_observableSubscriptions`. -/
def addEventListeners (s : AgmMarkerCluster) :
    List ManagerCall × AgmMarkerCluster :=
  ([ManagerCall.createClusterEventObservable "clusterclick",
    ManagerCall.createClusterEventObservable "dblclick"],
   { s with observableSubscriptions :=
       s.observableSubscriptions ++ ["clusterclick", "dblclick"] })

/-- The setter calls issued by `ngOnChanges` for a given changes map,
modelled as the list of changed input keys; transcribed guard by guard
from the source, including the second `styles` guard at lines 134-136. -/
def setterCallsOfChanges (changes : List String) : List ManagerCall :=
  (if changes.contains "gridSize" then [ManagerCall.setGridSize] else []) ++
  (if changes.contains "maxZoom" then [ManagerCall.setMaxZoom] else []) ++
  (if changes.contains "styles" then [ManagerCall.setStyles] else []) ++
  (if changes.contains "zoomOnClick" then [ManagerCall.setZoomOnClick] else []) ++
  (if changes.contains "averageCenter" then [ManagerCall.setAverageCenter] else []) ++
  (if changes.contains "minimumClusterSize" then [ManagerCall.setMinimumClusterSize] else []) ++
  (if changes.contains "styles" then [ManagerCall.setStyles] else []) ++
  (if changes.contains "imagePath" then [ManagerCall.setImagePath] else []) ++
  (if changes.contains "imageExtension" then [ManagerCall.setImageExtension] else [])

/-- `ngOnChanges`: the per-key setter calls, then `_addEventListeners()`. -/
def ngOnChanges (s : AgmMarkerCluster) (changes : List String) :
    List ManagerCall × AgmMarkerCluster :=
  (setterCallsOfChanges changes ++ (addEventListeners s).fst,
   (addEventListeners s).snd)

/-- `ngOnInit`: a single `init` call carrying the full options object read
from the instance fields. -/
def ngOnInit (s : AgmMarkerCluster) :
    List ManagerCall × AgmMarkerCluster :=
  ([ManagerCall.init
      { gridSize := s.gridSize
        maxZoom := s.maxZoom
        zoomOnClick := s.zoomOnClick
        averageCenter := s.averageCenter
        minimumClusterSize := s.minimumClusterSize
        styles := s.styles
        imagePath := s.imagePath
        imageExtension := s.imageExtension }], s)

/-- `ngOnDestroy`: the single `clearMarkers` call; no field is touched. -/
def ngOnDestroy (s : AgmMarkerCluster) :
    List ManagerCall × AgmMarkerCluster :=
  ([ManagerCall.clearMarkers], s)

/-- One host-framework lifecycle invocation delivered to the directive. -/
inductive LifecycleEvent where
  | changes (changedKeys : List String)
  | onInit
  | onDestroy
deriving DecidableEq, Repr

/-- Dispatch one lifecycle invocation to the corresponding method. -/
def step (s : AgmMarkerCluster) : LifecycleEvent → List ManagerCall × AgmMarkerCluster
  | .changes ks => ngOnChanges s ks
  | .onInit => ngOnInit s
  | .onDestroy => ngOnDestroy s

/-- Run a sequence of lifecycle invocations, concatenating the manager
call traces. -/
def run (s : AgmMarkerCluster) : List LifecycleEvent → List ManagerCall × AgmMarkerCluster
  | [] => ([], s)
  | e :: es =>
    ((step s e).fst ++ (run (step s e).snd es).fst,
     (run (step s e).snd es).snd)

/-- The number of live subscriptions to the manager's cluster-click
stream held in `_observableSubscriptions`. -/
def clickSubscriptionCount (s : AgmMarkerCluster) : Nat :=
  (s.observableSubscriptions.filter fun n => n = "clusterclick").length

/-- The number of live subscriptions to the manager's double-click
stream held in `_observableSubscriptions`. -/
def dblclickSubscriptionCount (s : AgmMarkerCluster) : Nat :=
  (s.observableSubscriptions.filter fun n => n = "dblclick").length

/-- The number of `LifecycleEvent.changes` invocations in a run. -/
def countChanges : List LifecycleEvent → Nat
  | [] => 0
  | .changes _ :: es => countChanges es + 1
  | _ :: es => countChanges es

/-- Delivery of one cluster-click event from the manager's stream, under
rxjs semantics: every subscription held for `clusterclick` runs the
subscriber callback once. -/
def deliverClusterClick (s : AgmMarkerCluster) (cluster : Cluster) :
    List DirectiveAction :=
  (s.observableSubscriptions.filter fun n => n = "clusterclick").foldr
    (fun _ acc => clusterClickHandler s.openInfoWindow s.infoWindow cluster ++ acc)
    []

/-- `true` exactly for `clusterClick` emission actions. -/
def DirectiveAction.isEmit : DirectiveAction → Bool
  | .emitClusterClick _ => true
  | _ => false

/-- A concrete cluster used to evaluate the model at specific inputs. -/
def sampleCluster : Cluster :=
  { getCenter := { lat := 10, lng := 20 }
    getBounds :=
      { getNorthEast := { lat := 30, lng := 40 }
        getSouthWest := { lat := -30, lng := -40 } }
    getMarkers := [{ title := "m1" }, { title := "m2" }] }

/-! ## Helper lemmas -/

theorem ngOnChanges_fst (s : AgmMarkerCluster) (ks : List String) :
    (ngOnChanges s ks).fst =
      setterCallsOfChanges ks ++
        [ManagerCall.createClusterEventObservable "clusterclick",
         ManagerCall.createClusterEventObservable "dblclick"] := rfl

theorem clickCount_addEventListeners (s : AgmMarkerCluster) :
    clickSubscriptionCount (addEventListeners s).snd =
      clickSubscriptionCount s + 1 := by
  have h : (["clusterclick", "dblclick"].filter fun n => n = "clusterclick")
      = ["clusterclick"] := by decide
  simp [clickSubscriptionCount, addEventListeners, List.filter_append, h]

theorem dblclickCount_addEventListeners (s : AgmMarkerCluster) :
    dblclickSubscriptionCount (addEventListeners s).snd =
      dblclickSubscriptionCount s + 1 := by
  have h : (["clusterclick", "dblclick"].filter fun n => n = "dblclick")
      = ["dblclick"] := by decide
  simp [dblclickSubscriptionCount, addEventListeners, List.filter_append, h]

theorem setterCalls_not_init (ks : List String) :
    ((setterCallsOfChanges ks).all fun c => !(ManagerCall.isInitCall c)) = true := by
  unfold setterCallsOfChanges
  split_ifs <;> rfl

/-! ## Claims -/

/-- C3: `handleInfoWindowUpdate` raises an error if and only if more than
one info window is projected: it returns normally (no thrown error)
exactly when the content list holds zero or one info window, and throws
exactly when it holds two or more. -/
theorem handleInfoWindowUpdate_raises_iff (ws : List AgmInfoWindow) :
    (handleInfoWindowUpdate ws).fst = none ↔ ws.length ≤ 1 := by
  unfold handleInfoWindowUpdate
  by_cases h : ws.length > 1
  · simp [h]
  · simp [h]
    omega

/-- C10: the info-window guard is atomic on failure: whenever
`handleInfoWindowUpdate` throws, no projected info window's `hostMarker`
field has been modified - the window list after the failing call is the
input list, unchanged. -/
theorem handleInfoWindowUpdate_error_atomic (ws : List AgmInfoWindow)
    (e : String) (h : (handleInfoWindowUpdate ws).fst = some e) :
    (handleInfoWindowUpdate ws).snd = ws := by
  unfold handleInfoWindowUpdate at *
  by_cases hl : ws.length > 1
  · simp [hl]
  · simp [hl] at h

/-- Witness for C10: with two projected info windows the guard throws and
both windows come back with `hostMarker` untouched. -/
theorem handleInfoWindowUpdate_error_atomic_witness :
    (handleInfoWindowUpdate [{ hostMarker := false }, { hostMarker := false }]).fst
      = some "Expected no more than one info window." ∧
    (handleInfoWindowUpdate [{ hostMarker := false }, { hostMarker := false }]).snd
      = [{ hostMarker := false }, { hostMarker := false }] :=
  ⟨by decide,
   handleInfoWindowUpdate_error_atomic
     [{ hostMarker := false }, { hostMarker := false }]
     "Expected no more than one info window." (by decide)⟩

/-- C7: `ngOnInit` makes a single `init` call on the manager, whose
options object carries all eight configured options - gridSize, maxZoom,
zoomOnClick, averageCenter, minimumClusterSize, styles, imagePath and
imageExtension - read from the instance. -/
theorem ngOnInit_forwards_full_config (s : AgmMarkerCluster) :
    ∃ o : ClusterOptions,
      (ngOnInit s).fst = [ManagerCall.init o] ∧
      o.gridSize = s.gridSize ∧
      o.maxZoom = s.maxZoom ∧
      o.zoomOnClick = s.zoomOnClick ∧
      o.averageCenter = s.averageCenter ∧
      o.minimumClusterSize = s.minimumClusterSize ∧
      o.styles = s.styles ∧
      o.imagePath = s.imagePath ∧
      o.imageExtension = s.imageExtension :=
  ⟨_, rfl, rfl, rfl, rfl, rfl, rfl, rfl, rfl, rfl⟩

/-- C8: no invocation of `ngOnChanges`, for any set of changed keys, ever
issues an `init` call on the manager; `ngOnDestroy` issues none either,
while `ngOnInit` does - `init` is reachable only from `ngOnInit`. -/
theorem ngOnChanges_never_calls_init (s : AgmMarkerCluster) (ks : List String) :
    ((ngOnChanges s ks).fst.all fun c => !(ManagerCall.isInitCall c)) = true ∧
    ((ngOnDestroy s).fst.all fun c => !(ManagerCall.isInitCall c)) = true ∧
    ((ngOnInit s).fst.any ManagerCall.isInitCall) = true := by
  refine ⟨?_, rfl, rfl⟩
  rw [ngOnChanges_fst, List.all_append]
  rw [setterCalls_not_init]
  rfl

/-- C1, evaluated at the failing input: an `ngOnChanges` invocation whose
changes map contains exactly the key `styles` issues the `setStyles`
setter twice, not once - the guard on `styles` is duplicated in the
source (lines 122-124 and 134-136). The other calls of that invocation
are the two `createClusterEventObservable` calls, so the filter keeps
only setter/init calls. -/
theorem ngOnChanges_styles_double_setter :
    ((ngOnChanges defaultDirective ["styles"]).fst.filter
        ManagerCall.isSetterOrInit)
      = [ManagerCall.setStyles, ManagerCall.setStyles] ∧
    ((ngOnChanges defaultDirective ["styles"]).fst.filter
        ManagerCall.isSetterOrInit).length ≠ 1 ∧
    ((ngOnChanges defaultDirective ["gridSize"]).fst.filter
        ManagerCall.isSetterOrInit) = [ManagerCall.setGridSize] ∧
    ((ngOnChanges defaultDirective ["maxZoom"]).fst.filter
        ManagerCall.isSetterOrInit) = [ManagerCall.setMaxZoom] ∧
    ((ngOnChanges defaultDirective ["zoomOnClick"]).fst.filter
        ManagerCall.isSetterOrInit) = [ManagerCall.setZoomOnClick] ∧
    ((ngOnChanges defaultDirective ["averageCenter"]).fst.filter
        ManagerCall.isSetterOrInit) = [ManagerCall.setAverageCenter] ∧
    ((ngOnChanges defaultDirective ["minimumClusterSize"]).fst.filter
        ManagerCall.isSetterOrInit) = [ManagerCall.setMinimumClusterSize] ∧
    ((ngOnChanges defaultDirective ["imagePath"]).fst.filter
        ManagerCall.isSetterOrInit) = [ManagerCall.setImagePath] ∧
    ((ngOnChanges defaultDirective ["imageExtension"]).fst.filter
        ManagerCall.isSetterOrInit) = [ManagerCall.setImageExtension] := by
  refine ⟨?_, ?_, ?_, ?_, ?_, ?_, ?_, ?_, ?_⟩ <;> decide

/-- C9: `openInfoWindow` defaults to `true` - a directive whose inputs
the host never set auto-opens the attached info window on a cluster
click: the first action of the click handler is the info-window open. -/
theorem openInfoWindow_defaults_true (w : AgmInfoWindow) (c : Cluster) :
    defaultDirective.openInfoWindow = true ∧
    (clusterClickHandler defaultDirective.openInfoWindow [w] c).head?
      = some DirectiveAction.infoWindowOpen :=
  ⟨rfl, rfl⟩

/-- C6: the emitted click event transcribes the cluster's geometry field
for field - north/east from the bounds' north-east corner, south/west
from its south-west corner, lat/lng from the cluster center - and its
markers field maps each cluster marker, in order, to an object holding
only its title; and that exact event is what the click handler emits. -/
theorem clusterClick_event_transcription (c : Cluster) (b : Bool)
    (ws : List AgmInfoWindow) :
    (buildClusterClickEvent c).bounds.north = c.getBounds.getNorthEast.lat ∧
    (buildClusterClickEvent c).bounds.east = c.getBounds.getNorthEast.lng ∧
    (buildClusterClickEvent c).bounds.south = c.getBounds.getSouthWest.lat ∧
    (buildClusterClickEvent c).bounds.west = c.getBounds.getSouthWest.lng ∧
    (buildClusterClickEvent c).center.lat = c.getCenter.lat ∧
    (buildClusterClickEvent c).center.lng = c.getCenter.lng ∧
    (buildClusterClickEvent c).markers
      = c.getMarkers.map (fun m => { title := m.title }) ∧
    DirectiveAction.emitClusterClick (buildClusterClickEvent c)
      ∈ clusterClickHandler b ws c := by
  refine ⟨rfl, rfl, rfl, rfl, rfl, rfl, rfl, ?_⟩
  unfold clusterClickHandler
  exact List.mem_append_right _ (List.mem_singleton.mpr rfl)

/-- C5: in the click handler's action trace, with `openInfoWindow` true
the emission of the `clusterClick` event sits at position `ws.length`
and every earlier position is an info-window `open()` - so each attached
info window is opened before the event is emitted; with `openInfoWindow`
false the trace contains no open action at all. -/
theorem clusterClick_open_before_emit (ws : List AgmInfoWindow) (c : Cluster) :
    (clusterClickHandler true ws c)[ws.length]?
      = some (DirectiveAction.emitClusterClick (buildClusterClickEvent c)) ∧
    (∀ i, i < ws.length →
      (clusterClickHandler true ws c)[i]?
        = some DirectiveAction.infoWindowOpen) ∧
    ((clusterClickHandler false ws c).all
      fun a => !(DirectiveAction.isOpen a)) = true := by
  refine ⟨?_, ?_, rfl⟩
  · unfold clusterClickHandler
    simp
  · intro i hi
    unfold clusterClickHandler
    rw [List.getElem?_append_left (by simpa using hi)]
    simp [List.getElem?_replicate, hi]

/-- Witness for C5: with one attached info window, position 0 of the
trace is the open and position 1 is the emission. -/
theorem clusterClick_open_before_emit_witness :
    (clusterClickHandler true [{ hostMarker := false }] sampleCluster)[0]?
      = some DirectiveAction.infoWindowOpen ∧
    (clusterClickHandler true [{ hostMarker := false }] sampleCluster)[1]?
      = some (DirectiveAction.emitClusterClick
          (buildClusterClickEvent sampleCluster)) :=
  ⟨(clusterClick_open_before_emit [{ hostMarker := false }] sampleCluster).2.1
      0 (by decide),
   (clusterClick_open_before_emit [{ hostMarker := false }] sampleCluster).1⟩

/-- Counterexample to C2: the subscriptions are not established at
initialization time, and more than one click subscription can exist:
a lifecycle run consisting of `ngOnInit` alone attaches no click
subscription, while a run with two `ngOnChanges` invocations leaves two
click subscriptions live at once. -/
theorem subscriptions_not_once_at_init :
    clickSubscriptionCount (run defaultDirective [LifecycleEvent.onInit]).snd = 0 ∧
    1 < clickSubscriptionCount
        (run defaultDirective
          [LifecycleEvent.changes [], LifecycleEvent.changes []]).snd := by
  constructor
  · decide
  · decide

/-- C2 as amended: the two manager event-stream subscriptions are
established once per `ngOnChanges` invocation, by `_addEventListeners`,
and by no other lifecycle hook - after any lifecycle run the directive
holds exactly one click and one double-click subscription per
`ngOnChanges` invocation in the run. -/
theorem subscriptions_track_onChanges (s : AgmMarkerCluster)
    (es : List LifecycleEvent) :
    clickSubscriptionCount (run s es).snd
      = clickSubscriptionCount s + countChanges es ∧
    dblclickSubscriptionCount (run s es).snd
      = dblclickSubscriptionCount s + countChanges es := by
  induction es generalizing s with
  | nil => exact ⟨rfl, rfl⟩
  | cons e es ih =>
    cases e with
    | changes ks =>
      obtain ⟨hc, hd⟩ := ih (addEventListeners s).snd
      refine ⟨?_, ?_⟩
      · show clickSubscriptionCount (run (addEventListeners s).snd es).snd
          = clickSubscriptionCount s + countChanges (LifecycleEvent.changes ks :: es)
        rw [hc, clickCount_addEventListeners]
        show _ = clickSubscriptionCount s + (countChanges es + 1)
        omega
      · show dblclickSubscriptionCount (run (addEventListeners s).snd es).snd
          = dblclickSubscriptionCount s + countChanges (LifecycleEvent.changes ks :: es)
        rw [hd, dblclickCount_addEventListeners]
        show _ = dblclickSubscriptionCount s + (countChanges es + 1)
        omega
    | onInit => exact ih s
    | onDestroy => exact ih s

/-- C4, evaluated at the failing input (one `ngOnChanges`, then
`ngOnDestroy`, then one delivered cluster click): `ngOnDestroy` does
issue `clearMarkers` exactly once, but it releases nothing - the two
subscriptions pushed onto `_observableSubscriptions` survive destruction,
and a cluster-click event delivered after destruction still runs the
subscriber and emits a `clusterClick` output event. -/
theorem ngOnDestroy_leaks_subscriptions :
    (ngOnDestroy (run defaultDirective [LifecycleEvent.changes []]).snd).fst
      = [ManagerCall.clearMarkers] ∧
    (run defaultDirective
        [LifecycleEvent.changes [], LifecycleEvent.onDestroy]).snd.observableSubscriptions
      = ["clusterclick", "dblclick"] ∧
    ((deliverClusterClick
        (run defaultDirective
          [LifecycleEvent.changes [], LifecycleEvent.onDestroy]).snd
        sampleCluster).any DirectiveAction.isEmit) = true := by
  refine ⟨rfl, ?_, ?_⟩
  · decide
  · decide

end MarkerCluster
